import Mathlib

/-
Verification of the D-Rats map widget coordinate transforms
(src/d_rats/map/mapwidget.py) and the menu construction helpers
(src/d_rats/menu_helpers.py).

Python floats are modelled as exact rationals.  A Python
ZeroDivisionError is modelled by an Except error value, since Python
raises on division by zero instead of producing infinities.
-/

namespace DRats

/-- Geographic position, the (latitude, longitude) pair of Map.Position. -/
structure Position where
  latitude : ℚ
  longitude : ℚ
  deriving DecidableEq, Repr

/-- Modelled from the spec: the Map.Tile collaborator is not part of the
excerpt.  The spec describes a tile as a fixed-size geographic grid cell
addressable by integer offset from a reference, with defined geographic
edge coordinates, reported in the order (south, west, north, east).
A grid is described by the geographic extent of one tile on each axis. -/
structure TileGrid where
  lonStep : ℚ
  latStep : ℚ
  deriving DecidableEq, Repr

/-- Modelled from the spec: a tile is addressed by integer offsets,
column index increasing eastward and row index increasing southward,
as implied by the topleft/botright offsets in calculate_bounds. -/
structure Tile where
  grid : TileGrid
  tx : ℤ
  ty : ℤ
  deriving DecidableEq, Repr

/-- Western edge longitude of tile column tx. -/
def lonEdge (g : TileGrid) (tx : ℤ) : ℚ := (tx : ℚ) * g.lonStep - 180

/-- Northern edge latitude of tile row ty. -/
def latEdge (g : TileGrid) (ty : ℤ) : ℚ := 90 - (ty : ℚ) * g.latStep

/-- Modelled from the spec: tile.edges() reports the geographic edges of
the tile in the order (south, west, north, east). -/
def Tile.tile_edges (t : Tile) : ℚ × ℚ × ℚ × ℚ :=
  (latEdge t.grid (t.ty + 1), lonEdge t.grid t.tx,
   latEdge t.grid t.ty, lonEdge t.grid (t.tx + 1))

/-- Modelled from the spec: Map.Tile(position=p) is the tile whose
coverage area contains position p. -/
def Tile.ofPosition (g : TileGrid) (p : Position) : Tile :=
  ⟨g, Int.floor ((p.longitude + 180) / g.lonStep),
      Int.floor ((90 - p.latitude) / g.latStep)⟩

/-- Modelled from the spec: tile + (dx, dy) tile-offset arithmetic. -/
def Tile.shift (t : Tile) (d : ℤ × ℤ) : Tile :=
  ⟨t.grid, t.tx + d.1, t.ty + d.2⟩

/-- Modelled from the spec: position in tile membership, the coverage
area of a tile between its western/eastern and southern/northern edges,
half-open so that a position belongs to exactly one tile of the grid. -/
def posInTile (p : Position) (t : Tile) : Bool :=
  decide (lonEdge t.grid t.tx ≤ p.longitude) &&
  decide (p.longitude < lonEdge t.grid (t.tx + 1)) &&
  decide (latEdge t.grid (t.ty + 1) < p.latitude) &&
  decide (p.latitude ≤ latEdge t.grid t.ty)

/-- Python runtime errors raised by the embedded code paths:
ZeroDivisionError for division by zero, and the failure of the tile
collaborator when handed position=None. -/
inductive PyErr where
  | zeroDivision
  | badPosition
  deriving DecidableEq, Repr

/-- Python division: raises ZeroDivisionError on a zero divisor. -/
def qdiv (a b : ℚ) : Except PyErr ℚ :=
  if b = 0 then Except.error PyErr.zeroDivision else Except.ok (a / b)

/-- State of a MapWidget: viewport width and height in tiles, tile size
in pixels, optional center position, the four normalized bounds, the two
fudge offsets and the list of visible tiles. -/
structure MapState where
  width : ℕ
  height : ℕ
  tilesize : ℕ
  position : Option Position
  lat_min : ℚ
  lat_max : ℚ
  lon_min : ℚ
  lon_max : ℚ
  x_fudge : ℚ
  y_fudge : ℚ
  map_tiles : List Tile
  deriving DecidableEq, Repr

/-- LAT_MAX class constant of MapWidget. -/
def LAT_MAX : ℚ := 90

/-- LON_MAX class constant of MapWidget. -/
def LON_MAX : ℚ := 180

/-- MapWidget.__init__: position is None, all four bounds are zeroed,
the class level fudge attributes are zero and map_tiles is empty. -/
def mapWidgetInit (width height tilesize : ℕ) : MapState :=
  ⟨width, height, tilesize, none, 0, 0, 0, 0, 0, 0, []⟩

/-- MapWidget.set_center: stores the new center position (the redraw
side effects are toolkit calls with no bearing on the state). -/
def set_center (s : MapState) (p : Position) : MapState :=
  ⟨s.width, s.height, s.tilesize, some p, s.lat_min, s.lat_max,
   s.lon_min, s.lon_max, s.x_fudge, s.y_fudge, s.map_tiles⟩

/-- MapWidget.latlon2xy: y fraction from the latitude, x fraction from
the longitude, both inverted by (1 - f), scaled by the viewport pixel
size, then shifted by the fudge offsets.  The divisions are unguarded in
the source, hence the Except result. -/
def latlon2xy (s : MapState) (pos : Position) : Except PyErr (ℚ × ℚ) :=
  match qdiv (pos.latitude + LAT_MAX - s.lat_min) (s.lat_max - s.lat_min) with
  | Except.error e => Except.error e
  | Except.ok fy =>
    match qdiv (pos.longitude + LON_MAX - s.lon_min) (s.lon_max - s.lon_min) with
    | Except.error e => Except.error e
    | Except.ok fx =>
      Except.ok ((1 - fx) * ((s.tilesize * s.width : ℕ) : ℚ) + s.x_fudge,
                 (1 - fy) * ((s.tilesize * s.height : ℕ) : ℚ) + s.y_fudge)

/-- MapWidget.xy2latlon: subtract the fudge offsets, divide by the
viewport pixel size, invert the fractions and denormalize.  The
divisors are the pixel dimensions, not the bound differences. -/
def xy2latlon (s : MapState) (x_map y_map : ℚ) : Except PyErr Position :=
  match qdiv (x_map - s.x_fudge) ((s.tilesize * s.width : ℕ) : ℚ) with
  | Except.error e => Except.error e
  | Except.ok lon0 =>
    match qdiv (y_map - s.y_fudge) ((s.tilesize * s.height : ℕ) : ℚ) with
    | Except.error e => Except.error e
    | Except.ok lat0 =>
      Except.ok ⟨(1 - lat0) * (s.lat_max - s.lat_min) + s.lat_min - LAT_MAX,
                 (1 - lon0) * (s.lon_max - s.lon_min) + s.lon_min - LON_MAX⟩

/-- MapWidget.calculate_bounds: build the corner tiles from the center
tile, unpack (lat_min, _, _, lon_min) from the botright edges and
(_, lon_max, lat_max, _) from the topleft edges, normalize by adding
LAT_MAX and LON_MAX, zero the fudges, then set the fudges to the pixel
difference between the half-viewport point and the uncorrected forward
transform of the north-west corner of the center tile. -/
def calculate_bounds (g : TileGrid) (s : MapState) : Except PyErr MapState :=
  match s.position with
  | none => Except.error PyErr.badPosition
  | some pos =>
    let center := Tile.ofPosition g pos
    let delta_h : ℕ := s.height / 2
    let delta_w : ℕ := s.width / 2
    let topleft := Tile.shift center (-(delta_w : ℤ), -(delta_h : ℤ))
    let botright := Tile.shift center ((delta_w : ℤ), (delta_h : ℤ))
    let lat_min := (Tile.tile_edges botright).1
    let lon_min := (Tile.tile_edges botright).2.2.2
    let lon_max := (Tile.tile_edges topleft).2.1
    let lat_max := (Tile.tile_edges topleft).2.2.1
    let s1 : MapState :=
      ⟨s.width, s.height, s.tilesize, s.position,
       lat_min + LAT_MAX, lat_max + LAT_MAX,
       lon_min + LON_MAX, lon_max + LON_MAX,
       0, 0, s.map_tiles⟩
    let west := (Tile.tile_edges center).2.1
    let north := (Tile.tile_edges center).2.2.1
    match latlon2xy s1 (Position.mk north west) with
    | Except.error e => Except.error e
    | Except.ok xy =>
      Except.ok ⟨s.width, s.height, s.tilesize, s.position,
                 s1.lat_min, s1.lat_max, s1.lon_min, s1.lon_max,
                 (delta_w : ℚ) * (s.tilesize : ℚ) - xy.1,
                 (delta_h : ℚ) * (s.tilesize : ℚ) - xy.2,
                 s.map_tiles⟩

/-- MapWidget.point_is_visible: linear scan of map_tiles for a tile
containing the point. -/
def point_is_visible (s : MapState) (p : Position) : Bool :=
  s.map_tiles.any (fun t => posInTile p t)

/-! Menu builder model.  The Gtk widget primitives are modelled from the
spec description of the toolkit collaborator: boxes are containers with
an orientation, a spacing and an ordered child list; images, labels and
accel labels are leaves; a menu item owns a child list and a list of
accelerator bindings. -/

/-- Box orientation of the toolkit container. -/
inductive BoxOrient where
  | horizontal
  | vertical
  deriving DecidableEq, Repr

/-- Source of an icon image: a named theme icon or an image file. -/
inductive IconSrc where
  | themeIcon (name : String)
  | fileIcon (path : String)
  deriving DecidableEq, Repr

/-- Widget tree built by the menu helpers. -/
inductive Widget where
  | image (src : IconSrc)
  | accelLabel (text : String)
  | plainLabel (text : String)
  | box (orient : BoxOrient) (spacing : ℕ) (children : List Widget)

/-- One accelerator binding installed by add_accelerator: the signal
name, the key value, the modifier mask and the VISIBLE flag. -/
structure Accel where
  signal : String
  key : ℕ
  mods : ℕ
  visibleFlag : Bool
  deriving DecidableEq, Repr

/-- A menu item: its child widgets and its accelerator bindings. -/
structure MenuItem where
  children : List Widget
  accels : List Accel

/-- Gdk.unicode_to_keyval modelled as the Unicode code point of the
character, which is the Gdk mapping for ordinary printable keys. -/
def unicode_to_keyval (c : Char) : ℕ := c.toNat

/-- Embeds _add_menu_accel_image: create a horizontal box with spacing
6, add the icon, create an accel label with the label text, bind the
activate accelerator for the key of the given character with the given
modifiers and the VISIBLE flag, pack the label at the end of the box,
and add the box to the menu item. -/
def add_menu_accel_image (item : MenuItem) (menu_icon : Widget)
    (label_text : String) (accel_key_char : Char) (accel_mods : ℕ) :
    MenuItem :=
  let accel_key := unicode_to_keyval accel_key_char
  let label := Widget.accelLabel label_text
  let menu_box := Widget.box BoxOrient.horizontal 6 [menu_icon, label]
  ⟨item.children ++ [menu_box],
   item.accels ++ [⟨"activate", accel_key, accel_mods, true⟩]⟩

/-- Embeds add_menu_accel_theme_image: build the icon from the theme
icon name and delegate to the core helper. -/
def add_menu_accel_theme_image (item : MenuItem) (icon_name : String)
    (label_text : String) (accel_key_char : Char) (accel_mods : ℕ) :
    MenuItem :=
  add_menu_accel_image item (Widget.image (IconSrc.themeIcon icon_name))
    label_text accel_key_char accel_mods

mutual

/-- Number of icon widgets in a widget tree. -/
def iconCount : Widget → ℕ
  | Widget.image _ => 1
  | Widget.accelLabel _ => 0
  | Widget.plainLabel _ => 0
  | Widget.box _ _ cs => iconCountList cs

/-- Number of icon widgets in a forest. -/
def iconCountList : List Widget → ℕ
  | [] => 0
  | w :: ws => iconCount w + iconCountList ws

end

mutual

/-- Number of label widgets reading a given text in a widget tree. -/
def labelCount (t : String) : Widget → ℕ
  | Widget.image _ => 0
  | Widget.accelLabel u => if u = t then 1 else 0
  | Widget.plainLabel u => if u = t then 1 else 0
  | Widget.box _ _ cs => labelCountList t cs

/-- Number of label widgets reading a given text in a forest. -/
def labelCountList (t : String) : List Widget → ℕ
  | [] => 0
  | w :: ws => labelCount t w + labelCountList t ws

end

/-! Helper lemmas about the transforms. -/

theorem qdiv_ok (a b : ℚ) (hb : b ≠ 0) : qdiv a b = Except.ok (a / b) := by
  simp [qdiv, hb]

theorem qdiv_zero (a : ℚ) : qdiv a 0 = Except.error PyErr.zeroDivision := by
  simp [qdiv]

/-- Closed form of latlon2xy when both divisors are nonzero. -/
theorem latlon2xy_eq (s : MapState) (pos : Position)
    (h1 : s.lat_max - s.lat_min ≠ 0) (h2 : s.lon_max - s.lon_min ≠ 0) :
    latlon2xy s pos = Except.ok
      ((1 - (pos.longitude + LON_MAX - s.lon_min) / (s.lon_max - s.lon_min)) *
          ((s.tilesize * s.width : ℕ) : ℚ) + s.x_fudge,
       (1 - (pos.latitude + LAT_MAX - s.lat_min) / (s.lat_max - s.lat_min)) *
          ((s.tilesize * s.height : ℕ) : ℚ) + s.y_fudge) := by
  simp only [latlon2xy, qdiv_ok _ _ h1, qdiv_ok _ _ h2]

/-- latlon2xy raises ZeroDivisionError on a degenerate latitude axis. -/
theorem latlon2xy_degenerate_lat (s : MapState) (p : Position)
    (h : s.lat_max - s.lat_min = 0) :
    latlon2xy s p = Except.error PyErr.zeroDivision := by
  simp only [latlon2xy, h, qdiv_zero]

/-- latlon2xy raises ZeroDivisionError on a degenerate longitude axis. -/
theorem latlon2xy_degenerate_lon (s : MapState) (p : Position)
    (h : s.lon_max - s.lon_min = 0) :
    latlon2xy s p = Except.error PyErr.zeroDivision := by
  rcases eq_or_ne (s.lat_max - s.lat_min) 0 with h1 | h1
  · exact latlon2xy_degenerate_lat s p h1
  · simp only [latlon2xy, qdiv_ok _ _ h1, h, qdiv_zero]

/-- Closed form of xy2latlon when the viewport pixel sizes are nonzero:
note the divisors are the pixel sizes, never the bound differences. -/
theorem xy2latlon_eq (s : MapState) (x y : ℚ)
    (hW : ((s.tilesize * s.width : ℕ) : ℚ) ≠ 0)
    (hH : ((s.tilesize * s.height : ℕ) : ℚ) ≠ 0) :
    xy2latlon s x y = Except.ok
      ⟨(1 - (y - s.y_fudge) / ((s.tilesize * s.height : ℕ) : ℚ)) *
          (s.lat_max - s.lat_min) + s.lat_min - LAT_MAX,
       (1 - (x - s.x_fudge) / ((s.tilesize * s.width : ℕ) : ℚ)) *
          (s.lon_max - s.lon_min) + s.lon_min - LON_MAX⟩ := by
  simp only [xy2latlon, qdiv_ok _ _ hW, qdiv_ok _ _ hH]

/-- Closed form of the state computed by calculate_bounds, expressed
with the indices of the center tile.  The longitude bounds are crossed:
lon_min receives the eastern edge of the bottom-right tile and lon_max
the western edge of the top-left tile. -/
def boundsState (g : TileGrid) (s : MapState) (pos : Position) : MapState :=
  ⟨s.width, s.height, s.tilesize, s.position,
   180 - (((Tile.ofPosition g pos).ty + (s.height / 2 : ℕ) + 1 : ℤ) : ℚ) * g.latStep,
   180 - (((Tile.ofPosition g pos).ty - (s.height / 2 : ℕ) : ℤ) : ℚ) * g.latStep,
   (((Tile.ofPosition g pos).tx + (s.width / 2 : ℕ) + 1 : ℤ) : ℚ) * g.lonStep,
   (((Tile.ofPosition g pos).tx - (s.width / 2 : ℕ) : ℤ) : ℚ) * g.lonStep,
   ((s.width / 2 : ℕ) : ℚ) * (s.tilesize : ℚ) -
     ((s.width / 2 : ℕ) : ℚ) / (2 * ((s.width / 2 : ℕ) : ℚ) + 1) *
       ((s.tilesize * s.width : ℕ) : ℚ),
   ((s.height / 2 : ℕ) : ℚ) * (s.tilesize : ℚ) -
     ((s.height / 2 : ℕ) : ℚ) / (2 * ((s.height / 2 : ℕ) : ℚ) + 1) *
       ((s.tilesize * s.height : ℕ) : ℚ),
   s.map_tiles⟩

/-- Algebraic identity behind the x fudge: the uncorrected forward
transform of the western corner lands at the fraction d/(2d+1) of the
viewport width. -/
theorem fudge_helper_lon (q d T N step : ℚ) (hstep : step ≠ 0)
    (hd : 2 * d + 1 ≠ 0) :
    d * T - ((1 - (q * step - 180 + 180 - ((q + d + 1) * step - 180 + 180)) /
        ((q + -d) * step - 180 + 180 - ((q + d + 1) * step - 180 + 180))) * N + 0) =
    d * T - d / (2 * d + 1) * N := by
  have hden : (q + -d) * step - 180 + 180 - ((q + d + 1) * step - 180 + 180) =
      -((2 * d + 1) * step) := by ring
  have hnum : q * step - 180 + 180 - ((q + d + 1) * step - 180 + 180) =
      -((d + 1) * step) := by ring
  rw [hden, hnum, neg_div_neg_eq, mul_div_mul_right _ _ hstep]
  have key : 1 - (d + 1) / (2 * d + 1) = d / (2 * d + 1) := by
    rw [eq_div_iff hd]
    field_simp
    ring
  rw [key]
  ring

/-- Algebraic identity behind the y fudge: the uncorrected forward
transform of the northern corner lands at the fraction d/(2d+1) of the
viewport height. -/
theorem fudge_helper_lat (q d T N step : ℚ) (hstep : step ≠ 0)
    (hd : 2 * d + 1 ≠ 0) :
    d * T - ((1 - (90 - q * step + 90 - (90 - (q + d + 1) * step + 90)) /
        (90 - (q + -d) * step + 90 - (90 - (q + d + 1) * step + 90))) * N + 0) =
    d * T - d / (2 * d + 1) * N := by
  have hden : 90 - (q + -d) * step + 90 - (90 - (q + d + 1) * step + 90) =
      (2 * d + 1) * step := by ring
  have hnum : 90 - q * step + 90 - (90 - (q + d + 1) * step + 90) =
      (d + 1) * step := by ring
  rw [hden, hnum, mul_div_mul_right _ _ hstep]
  have key : 1 - (d + 1) / (2 * d + 1) = d / (2 * d + 1) := by
    rw [eq_div_iff hd]
    field_simp
    ring
  rw [key]
  ring

/-- calculate_bounds succeeds and produces boundsState whenever a center
position is set and the tile grid has nonzero steps. -/
theorem calculate_bounds_eq (g : TileGrid) (s : MapState) (pos : Position)
    (hp : s.position = some pos) (hlat : g.latStep ≠ 0) (hlon : g.lonStep ≠ 0) :
    calculate_bounds g s = Except.ok (boundsState g s pos) := by
  have hdh1 : (2 * ((s.height / 2 : ℕ) : ℚ) + 1) ≠ 0 := by positivity
  have hdw1 : (2 * ((s.width / 2 : ℕ) : ℚ) + 1) ≠ 0 := by positivity
  have h1 : (latEdge g ((Tile.ofPosition g pos).ty - (s.height / 2 : ℕ)) + LAT_MAX) -
      (latEdge g ((Tile.ofPosition g pos).ty + (s.height / 2 : ℕ) + 1) + LAT_MAX) =
      (2 * ((s.height / 2 : ℕ) : ℚ) + 1) * g.latStep := by
    simp only [latEdge, LAT_MAX, Int.cast_add, Int.cast_sub, Int.cast_one, Int.cast_natCast]
    ring
  have h2 : (lonEdge g ((Tile.ofPosition g pos).tx - (s.width / 2 : ℕ)) + LON_MAX) -
      (lonEdge g ((Tile.ofPosition g pos).tx + (s.width / 2 : ℕ) + 1) + LON_MAX) =
      -((2 * ((s.width / 2 : ℕ) : ℚ) + 1) * g.lonStep) := by
    simp only [lonEdge, LON_MAX, Int.cast_add, Int.cast_sub, Int.cast_one, Int.cast_natCast]
    ring
  have h1n : (latEdge g ((Tile.ofPosition g pos).ty - (s.height / 2 : ℕ)) + LAT_MAX) -
      (latEdge g ((Tile.ofPosition g pos).ty + (s.height / 2 : ℕ) + 1) + LAT_MAX) ≠ 0 := by
    rw [h1]
    exact mul_ne_zero hdh1 hlat
  have h2n : (lonEdge g ((Tile.ofPosition g pos).tx - (s.width / 2 : ℕ)) + LON_MAX) -
      (lonEdge g ((Tile.ofPosition g pos).tx + (s.width / 2 : ℕ) + 1) + LON_MAX) ≠ 0 := by
    rw [h2]
    exact neg_ne_zero.mpr (mul_ne_zero hdw1 hlon)
  simp only [calculate_bounds, hp, Tile.shift, Tile.tile_edges]
  rw [latlon2xy_eq _ _ h1n h2n]
  simp only [boundsState, MapState.mk.injEq, Except.ok.injEq, hp]
  refine ⟨trivial, trivial, trivial, trivial, ?_, ?_, ?_, ?_, ?_, ?_, trivial⟩
  · simp only [Tile.ofPosition, latEdge, LAT_MAX, Int.cast_add, Int.cast_sub,
      Int.cast_one, Int.cast_natCast]
    ring
  · simp only [Tile.ofPosition, latEdge, LAT_MAX, Int.cast_add, Int.cast_sub,
      Int.cast_neg, Int.cast_one, Int.cast_natCast]
    ring
  · simp only [Tile.ofPosition, lonEdge, LON_MAX, Int.cast_add, Int.cast_sub,
      Int.cast_one, Int.cast_natCast]
    ring
  · simp only [Tile.ofPosition, lonEdge, LON_MAX, Int.cast_add, Int.cast_sub,
      Int.cast_neg, Int.cast_one, Int.cast_natCast]
    ring
  · simp only [Tile.ofPosition, lonEdge, LON_MAX, Int.cast_add, Int.cast_sub,
      Int.cast_neg, Int.cast_one, Int.cast_natCast]
    exact fudge_helper_lon _ _ _ _ _ hlon hdw1
  · simp only [Tile.ofPosition, latEdge, LAT_MAX, Int.cast_add, Int.cast_sub,
      Int.cast_neg, Int.cast_one, Int.cast_natCast]
    exact fudge_helper_lat _ _ _ _ _ hlat hdh1

/-! Concrete states used by the witnesses and counterexamples. -/

/-- Tile grid with one-degree square tiles, for concrete runs. -/
def cGrid : TileGrid := ⟨1, 1⟩

/-- A 4 by 4 tile widget with 256 pixel tiles, centered on (0, 0). -/
def cState0 : MapState := set_center (mapWidgetInit 4 4 256) ⟨0, 0⟩

/-- The state calculate_bounds computes from cState0.  Note the crossed
longitude bounds: lon_min = 183 exceeds lon_max = 178. -/
def cBounds : MapState :=
  ⟨4, 4, 256, some ⟨0, 0⟩, 87, 92, 183, 178, 512/5, 512/5, []⟩

theorem cBounds_eq : calculate_bounds cGrid cState0 = Except.ok cBounds := by
  simp only [calculate_bounds, cState0, cGrid, cBounds, set_center, mapWidgetInit,
    Tile.ofPosition, Tile.shift, Tile.tile_edges, latEdge, lonEdge,
    latlon2xy, qdiv, LAT_MAX, LON_MAX]
  norm_num

/-- The same widget centered on (1/2, 1/2), a position that is interior
to its tile rather than on the tile corner. -/
def cState05 : MapState := set_center (mapWidgetInit 4 4 256) ⟨1/2, 1/2⟩

/-- The state calculate_bounds computes from cState05. -/
def cBounds05 : MapState :=
  ⟨4, 4, 256, some ⟨1/2, 1/2⟩, 88, 93, 183, 178, 512/5, 512/5, []⟩

theorem cBounds05_eq : calculate_bounds cGrid cState05 = Except.ok cBounds05 := by
  simp only [calculate_bounds, cState05, cGrid, cBounds05, set_center, mapWidgetInit,
    Tile.ofPosition, Tile.shift, Tile.tile_edges, latEdge, lonEdge,
    latlon2xy, qdiv, LAT_MAX, LON_MAX]
  norm_num

/-- Cancellation identity for the forward-then-inverse round trip. -/
theorem roundtrip_helper (v m M D N f : ℚ) (hD : D ≠ 0) (hN : N ≠ 0) :
    (1 - ((1 - (v + M - m) / D) * N + f - f) / N) * D + m - M = v := by
  have h3 : (1 - (v + M - m) / D) * N + f - f = (1 - (v + M - m) / D) * N := by
    ring
  rw [h3, mul_div_cancel_right₀ _ hN, sub_sub_cancel, div_mul_cancel₀ _ hD]
  ring

/-- Cancellation identity for the inverse-then-forward round trip. -/
theorem roundtrip_helper_xy (x m M D N f : ℚ) (hD : D ≠ 0) (hN : N ≠ 0) :
    (1 - ((1 - (x - f) / N) * D + m - M + M - m) / D) * N + f = x := by
  have h3 : (1 - (x - f) / N) * D + m - M + M - m = (1 - (x - f) / N) * D := by
    ring
  rw [h3, mul_div_cancel_right₀ _ hD, sub_sub_cancel, div_mul_cancel₀ _ hN]
  ring

/-! Claims. -/

/-- Claim C1: with non-degenerate bounds and a nonzero viewport, the
inverse transform applied to the forward transform reproduces the
position, exactly in rational arithmetic and so within the 1e-6
tolerance.  Proved for every position, which covers in particular the
in-bounds ones. -/
theorem xy2latlon_latlon2xy_roundtrip (s : MapState) (p : Position)
    (h1 : s.lat_max ≠ s.lat_min) (h2 : s.lon_max ≠ s.lon_min)
    (hW : ((s.tilesize * s.width : ℕ) : ℚ) ≠ 0)
    (hH : ((s.tilesize * s.height : ℕ) : ℚ) ≠ 0) :
    ∃ x y, latlon2xy s p = Except.ok (x, y) ∧ xy2latlon s x y = Except.ok p := by
  have h1s : s.lat_max - s.lat_min ≠ 0 := sub_ne_zero.mpr h1
  have h2s : s.lon_max - s.lon_min ≠ 0 := sub_ne_zero.mpr h2
  obtain ⟨plat, plon⟩ := p
  refine ⟨_, _, latlon2xy_eq s ⟨plat, plon⟩ h1s h2s, ?_⟩
  rw [xy2latlon_eq s _ _ hW hH]
  simp only [Except.ok.injEq, Position.mk.injEq]
  exact ⟨roundtrip_helper _ _ _ _ _ _ h1s hH, roundtrip_helper _ _ _ _ _ _ h2s hW⟩

/-- Witness for C1: concrete post-calculate_bounds state and position. -/
theorem xy2latlon_latlon2xy_roundtrip_witness :
    ∃ x y, latlon2xy cBounds ⟨1/2, 1/2⟩ = Except.ok (x, y) ∧
      xy2latlon cBounds x y = Except.ok ⟨1/2, 1/2⟩ :=
  xy2latlon_latlon2xy_roundtrip cBounds ⟨1/2, 1/2⟩
    (by norm_num [cBounds]) (by norm_num [cBounds])
    (by norm_num [cBounds]) (by norm_num [cBounds])

/-- Claim C10: with non-degenerate bounds and a nonzero viewport, the
forward transform applied to the inverse transform reproduces the pixel
pair exactly, so xy2latlon is also a right inverse of latlon2xy. -/
theorem latlon2xy_xy2latlon_roundtrip (s : MapState) (x y : ℚ)
    (h1 : s.lat_max ≠ s.lat_min) (h2 : s.lon_max ≠ s.lon_min)
    (hW : ((s.tilesize * s.width : ℕ) : ℚ) ≠ 0)
    (hH : ((s.tilesize * s.height : ℕ) : ℚ) ≠ 0) :
    ∃ p, xy2latlon s x y = Except.ok p ∧ latlon2xy s p = Except.ok (x, y) := by
  have h1s : s.lat_max - s.lat_min ≠ 0 := sub_ne_zero.mpr h1
  have h2s : s.lon_max - s.lon_min ≠ 0 := sub_ne_zero.mpr h2
  refine ⟨_, xy2latlon_eq s x y hW hH, ?_⟩
  rw [latlon2xy_eq _ _ h1s h2s]
  simp only [Except.ok.injEq, Prod.mk.injEq]
  exact ⟨roundtrip_helper_xy _ _ _ _ _ _ h2s hW, roundtrip_helper_xy _ _ _ _ _ _ h1s hH⟩

/-- Witness for C10: concrete post-calculate_bounds state and pixels. -/
theorem latlon2xy_xy2latlon_roundtrip_witness :
    ∃ p, xy2latlon cBounds 100 200 = Except.ok p ∧
      latlon2xy cBounds p = Except.ok (100, 200) :=
  latlon2xy_xy2latlon_roundtrip cBounds 100 200
    (by norm_num [cBounds]) (by norm_num [cBounds])
    (by norm_num [cBounds]) (by norm_num [cBounds])

/-- Strict monotonicity of the affine map for a negative denominator:
a larger numerator input gives a larger image. -/
theorem affine_lt_of_neg_denom (a b m c f D N : ℚ) (hab : a < b) (hD : D < 0)
    (hN : 0 < N) :
    (1 - (a + c - m) / D) * N + f < (1 - (b + c - m) / D) * N + f := by
  have h1 : (b + c - m) / D < (a + c - m) / D := by
    rw [div_eq_mul_inv, div_eq_mul_inv]
    exact mul_lt_mul_of_neg_right (by linarith) (inv_lt_zero.mpr hD)
  have h2 : 1 - (a + c - m) / D < 1 - (b + c - m) / D := by linarith
  have h3 := mul_lt_mul_of_pos_right h2 hN
  linarith

/-- Strict antitonicity of the affine map for a positive denominator:
a larger numerator input gives a smaller image. -/
theorem affine_lt_of_pos_denom (a b m c f D N : ℚ) (hab : a < b) (hD : 0 < D)
    (hN : 0 < N) :
    (1 - (b + c - m) / D) * N + f < (1 - (a + c - m) / D) * N + f := by
  have h1 : (a + c - m) / D < (b + c - m) / D := by
    rw [div_eq_mul_inv, div_eq_mul_inv]
    exact mul_lt_mul_of_pos_right (by linarith) (inv_pos.mpr hD)
  have h2 : 1 - (b + c - m) / D < 1 - (a + c - m) / D := by linarith
  have h3 := mul_lt_mul_of_pos_right h2 hN
  linarith

/-- Counterexample to claim C2 as stated: after calculate_bounds on the
widget centered at (0, 0), the in-bounds positions (0, 0) and (0, 1)
have increasing longitude yet map to strictly increasing x, 512 and
then 3584/5, not to a strictly smaller x. -/
theorem claim_c2_counterexample :
    ∃ s, calculate_bounds cGrid cState0 = Except.ok s ∧
      s.lat_min < 0 + LAT_MAX ∧ 0 + LAT_MAX < s.lat_max ∧
      s.lon_max < 0 + LON_MAX ∧ 1 + LON_MAX < s.lon_min ∧
      latlon2xy s ⟨0, 0⟩ = Except.ok (512, 512) ∧
      latlon2xy s ⟨0, 1⟩ = Except.ok (3584/5, 512) ∧
      ¬ ((3584 : ℚ)/5 < 512) := by
  refine ⟨cBounds, cBounds_eq, ?_⟩
  norm_num [cBounds, latlon2xy, qdiv, LAT_MAX, LON_MAX]

/-- Claim C2 (amended): after calculate_bounds, latlon2xy maps a
strictly greater longitude at equal latitude to a strictly GREATER x,
because lon_min holds the eastern and lon_max the western viewport edge;
the latitude half of the claim holds: strictly greater latitude at equal
longitude maps to a strictly smaller y. -/
theorem latlon2xy_monotone (g : TileGrid) (s0 s : MapState) (pos p q : Position)
    (xp yp xq yq : ℚ)
    (hp : s0.position = some pos) (hlat : 0 < g.latStep) (hlon : 0 < g.lonStep)
    (hT : 0 < s0.tilesize) (hW : 0 < s0.width) (hH : 0 < s0.height)
    (hcb : calculate_bounds g s0 = Except.ok s)
    (hfp : latlon2xy s p = Except.ok (xp, yp))
    (hfq : latlon2xy s q = Except.ok (xq, yq)) :
    (p.latitude = q.latitude → p.longitude < q.longitude → xp < xq) ∧
    (p.longitude = q.longitude → p.latitude < q.latitude → yq < yp) := by
  rw [calculate_bounds_eq g s0 pos hp (ne_of_gt hlat) (ne_of_gt hlon)] at hcb
  injection hcb with hs
  subst hs
  have hdh0 : (0 : ℚ) ≤ ((s0.height / 2 : ℕ) : ℚ) := Nat.cast_nonneg _
  have hdw0 : (0 : ℚ) ≤ ((s0.width / 2 : ℕ) : ℚ) := Nat.cast_nonneg _
  have hdlat : 0 < (boundsState g s0 pos).lat_max - (boundsState g s0 pos).lat_min := by
    simp only [boundsState, Int.cast_add, Int.cast_sub, Int.cast_one, Int.cast_natCast]
    nlinarith [hlat, hdh0]
  have hdlon : (boundsState g s0 pos).lon_max - (boundsState g s0 pos).lon_min < 0 := by
    simp only [boundsState, Int.cast_add, Int.cast_sub, Int.cast_one, Int.cast_natCast]
    nlinarith [hlon, hdw0]
  have hTW : (0 : ℚ) <
      (((boundsState g s0 pos).tilesize * (boundsState g s0 pos).width : ℕ) : ℚ) := by
    simp only [boundsState]
    exact_mod_cast Nat.mul_pos hT hW
  have hTH : (0 : ℚ) <
      (((boundsState g s0 pos).tilesize * (boundsState g s0 pos).height : ℕ) : ℚ) := by
    simp only [boundsState]
    exact_mod_cast Nat.mul_pos hT hH
  rw [latlon2xy_eq _ _ (ne_of_gt hdlat) (ne_of_lt hdlon)] at hfp hfq
  simp only [Except.ok.injEq, Prod.mk.injEq] at hfp hfq
  obtain ⟨hfp1, hfp2⟩ := hfp
  obtain ⟨hfq1, hfq2⟩ := hfq
  subst hfp1 hfp2 hfq1 hfq2
  constructor
  · intro _ hlon2
    exact affine_lt_of_neg_denom _ _ _ _ _ _ _ hlon2 hdlon hTW
  · intro _ hlat2
    exact affine_lt_of_pos_denom _ _ _ _ _ _ _ hlat2 hdlat hTH

/-- Witness for the amended C2 at concrete inputs. -/
theorem latlon2xy_monotone_witness :
    ((0 : ℚ) = 0 → (0 : ℚ) < 1 → (512 : ℚ) < 3584/5) ∧
      ((0 : ℚ) = 1 → (0 : ℚ) < 0 → (512 : ℚ) < 512) :=
  latlon2xy_monotone cGrid cState0 cBounds ⟨0, 0⟩ ⟨0, 0⟩ ⟨0, 1⟩ 512 512 (3584/5) 512
    rfl (by norm_num [cGrid]) (by norm_num [cGrid])
    (by decide) (by decide) (by decide)
    cBounds_eq
    (by norm_num [cBounds, latlon2xy, qdiv, LAT_MAX, LON_MAX])
    (by norm_num [cBounds, latlon2xy, qdiv, LAT_MAX, LON_MAX])

/-- Counterexample to claim C3 as stated: on the concrete run the
computed lon_min (183) is the normalized EASTERN edge of the bottom
right tile, whose western edge is 182, and lon_max (178) is the
normalized WESTERN edge of the top left tile, whose eastern edge is
179; edges read in the order (south, west, north, east). -/
theorem claim_c3_counterexample :
    ∃ s, calculate_bounds cGrid cState0 = Except.ok s ∧
      (Tile.shift (Tile.ofPosition cGrid ⟨0, 0⟩) (2, 2)).tile_edges.2.1 + LON_MAX
        = 182 ∧
      (Tile.shift (Tile.ofPosition cGrid ⟨0, 0⟩) (2, 2)).tile_edges.2.2.2 + LON_MAX
        = 183 ∧
      s.lon_min = 183 ∧ ¬ s.lon_min = 182 ∧
      (Tile.shift (Tile.ofPosition cGrid ⟨0, 0⟩) (-2, -2)).tile_edges.2.2.2 + LON_MAX
        = 179 ∧
      (Tile.shift (Tile.ofPosition cGrid ⟨0, 0⟩) (-2, -2)).tile_edges.2.1 + LON_MAX
        = 178 ∧
      s.lon_max = 178 ∧ ¬ s.lon_max = 179 := by
  refine ⟨cBounds, cBounds_eq, ?_⟩
  norm_num [cBounds, Tile.shift, Tile.ofPosition, Tile.tile_edges, latEdge,
    lonEdge, cGrid, LON_MAX]

/-- Claim C3 (amended): calculate_bounds takes lat_min from the south
edge (first component) and lon_min from the EAST edge (fourth component)
of the bottom right tile, and lat_max from the north edge (third
component) and lon_max from the WEST edge (second component) of the top
left tile, each then normalized by LAT_MAX or LON_MAX. -/
theorem calculate_bounds_edges (g : TileGrid) (s0 s : MapState) (pos : Position)
    (hp : s0.position = some pos) (hlat : g.latStep ≠ 0) (hlon : g.lonStep ≠ 0)
    (hcb : calculate_bounds g s0 = Except.ok s) :
    s.lat_min = (Tile.shift (Tile.ofPosition g pos)
        (((s0.width / 2 : ℕ) : ℤ), ((s0.height / 2 : ℕ) : ℤ))).tile_edges.1 + LAT_MAX ∧
    s.lon_min = (Tile.shift (Tile.ofPosition g pos)
        (((s0.width / 2 : ℕ) : ℤ), ((s0.height / 2 : ℕ) : ℤ))).tile_edges.2.2.2 + LON_MAX ∧
    s.lat_max = (Tile.shift (Tile.ofPosition g pos)
        (-((s0.width / 2 : ℕ) : ℤ), -((s0.height / 2 : ℕ) : ℤ))).tile_edges.2.2.1 + LAT_MAX ∧
    s.lon_max = (Tile.shift (Tile.ofPosition g pos)
        (-((s0.width / 2 : ℕ) : ℤ), -((s0.height / 2 : ℕ) : ℤ))).tile_edges.2.1 + LON_MAX := by
  rw [calculate_bounds_eq g s0 pos hp hlat hlon] at hcb
  injection hcb with hs
  subst hs
  refine ⟨?_, ?_, ?_, ?_⟩ <;>
    simp only [boundsState, Tile.ofPosition, Tile.shift, Tile.tile_edges,
      latEdge, lonEdge, LAT_MAX, LON_MAX, Int.cast_add, Int.cast_sub,
      Int.cast_neg, Int.cast_one, Int.cast_natCast] <;>
    ring

/-- Witness for the amended C3 on the concrete run. -/
theorem calculate_bounds_edges_witness :
    cBounds.lat_min = (Tile.shift (Tile.ofPosition cGrid ⟨0, 0⟩)
        (((cState0.width / 2 : ℕ) : ℤ), ((cState0.height / 2 : ℕ) : ℤ))).tile_edges.1 + LAT_MAX ∧
    cBounds.lon_min = (Tile.shift (Tile.ofPosition cGrid ⟨0, 0⟩)
        (((cState0.width / 2 : ℕ) : ℤ), ((cState0.height / 2 : ℕ) : ℤ))).tile_edges.2.2.2 + LON_MAX ∧
    cBounds.lat_max = (Tile.shift (Tile.ofPosition cGrid ⟨0, 0⟩)
        (-((cState0.width / 2 : ℕ) : ℤ), -((cState0.height / 2 : ℕ) : ℤ))).tile_edges.2.2.1 + LAT_MAX ∧
    cBounds.lon_max = (Tile.shift (Tile.ofPosition cGrid ⟨0, 0⟩)
        (-((cState0.width / 2 : ℕ) : ℤ), -((cState0.height / 2 : ℕ) : ℤ))).tile_edges.2.1 + LON_MAX :=
  calculate_bounds_edges cGrid cState0 cBounds ⟨0, 0⟩ rfl
    (by norm_num [cGrid]) (by norm_num [cGrid]) cBounds_eq

/-- Counterexample to claim C4 as stated: after calculate_bounds on the
widget centered at (0, 0) the longitude bounds are crossed, lon_max =
178 < 183 = lon_min, so the normalized box violates lon_max > lon_min. -/
theorem claim_c4_counterexample :
    ∃ s, calculate_bounds cGrid cState0 = Except.ok s ∧
      s.lon_max = 178 ∧ s.lon_min = 183 ∧ ¬ s.lon_min < s.lon_max := by
  refine ⟨cBounds, cBounds_eq, ?_⟩
  norm_num [cBounds]

/-- Claim C4 (amended): after every calculate_bounds with a set center
position, lat_min < lat_max holds, but the longitude bounds are crossed
the other way: lon_max < lon_min. -/
theorem calculate_bounds_box (g : TileGrid) (s0 s : MapState) (pos : Position)
    (hp : s0.position = some pos) (hlat : 0 < g.latStep) (hlon : 0 < g.lonStep)
    (hcb : calculate_bounds g s0 = Except.ok s) :
    s.lat_min < s.lat_max ∧ s.lon_max < s.lon_min := by
  rw [calculate_bounds_eq g s0 pos hp (ne_of_gt hlat) (ne_of_gt hlon)] at hcb
  injection hcb with hs
  subst hs
  have hdh0 : (0 : ℚ) ≤ ((s0.height / 2 : ℕ) : ℚ) := Nat.cast_nonneg _
  have hdw0 : (0 : ℚ) ≤ ((s0.width / 2 : ℕ) : ℚ) := Nat.cast_nonneg _
  constructor <;>
    simp only [boundsState, Int.cast_add, Int.cast_sub, Int.cast_one,
      Int.cast_natCast] <;>
    nlinarith [hlat, hlon, hdh0, hdw0]

/-- Witness for the amended C4 on the concrete run. -/
theorem calculate_bounds_box_witness :
    cBounds.lat_min < cBounds.lat_max ∧ cBounds.lon_max < cBounds.lon_min :=
  calculate_bounds_box cGrid cState0 cBounds ⟨0, 0⟩ rfl
    (by norm_num [cGrid]) (by norm_num [cGrid]) cBounds_eq

/-- Fraction identity for the corner fact, longitude direction. -/
theorem corner_helper_lon (q d T N step : ℚ) (hstep : step ≠ 0)
    (hd : 2 * d + 1 ≠ 0) :
    (1 - (q * step - 180 + 180 - (q + d + 1) * step) /
        ((q - d) * step - (q + d + 1) * step)) * N +
      (d * T - d / (2 * d + 1) * N) = d * T := by
  have hden : (q - d) * step - (q + d + 1) * step = -((2 * d + 1) * step) := by
    ring
  have hnum : q * step - 180 + 180 - (q + d + 1) * step = -((d + 1) * step) := by
    ring
  rw [hden, hnum, neg_div_neg_eq, mul_div_mul_right _ _ hstep]
  have key : 1 - (d + 1) / (2 * d + 1) = d / (2 * d + 1) := by
    rw [eq_div_iff hd]
    field_simp
    ring
  rw [key]
  ring

/-- Fraction identity for the corner fact, latitude direction. -/
theorem corner_helper_lat (q d T N step : ℚ) (hstep : step ≠ 0)
    (hd : 2 * d + 1 ≠ 0) :
    (1 - (90 - q * step + 90 - (180 - (q + d + 1) * step)) /
        (180 - (q - d) * step - (180 - (q + d + 1) * step))) * N +
      (d * T - d / (2 * d + 1) * N) = d * T := by
  have hden : 180 - (q - d) * step - (180 - (q + d + 1) * step) =
      (2 * d + 1) * step := by
    ring
  have hnum : 90 - q * step + 90 - (180 - (q + d + 1) * step) =
      (d + 1) * step := by
    ring
  rw [hden, hnum, mul_div_mul_right _ _ hstep]
  have key : 1 - (d + 1) / (2 * d + 1) = d / (2 * d + 1) := by
    rw [eq_div_iff hd]
    field_simp
    ring
  rw [key]
  ring

/-- Counterexample to claim C5 as stated: with center (1/2, 1/2), which
is interior to its tile, latlon2xy maps the center to (3072/5, 3072/5),
not to the viewport pixel center (512, 512). -/
theorem claim_c5_counterexample :
    ∃ s, calculate_bounds cGrid cState05 = Except.ok s ∧
      latlon2xy s ⟨1/2, 1/2⟩ = Except.ok (3072/5, 3072/5) ∧
      ¬ ((3072 : ℚ)/5 = 512) := by
  refine ⟨cBounds05, cBounds05_eq, ?_⟩
  norm_num [cBounds05, latlon2xy, qdiv, LAT_MAX, LON_MAX]

/-- Claim C5 (amended): the point that latlon2xy maps exactly to the
viewport pixel center (floor(width/2) * tilesize, floor(height/2) *
tilesize) is the north west corner of the CENTER TILE, by construction
of the fudge offsets; the center position maps there only when it
coincides with that corner. -/
theorem latlon2xy_center_tile_corner (g : TileGrid) (s0 s : MapState)
    (pos : Position)
    (hp : s0.position = some pos) (hlat : g.latStep ≠ 0) (hlon : g.lonStep ≠ 0)
    (hcb : calculate_bounds g s0 = Except.ok s) :
    latlon2xy s ⟨(Tile.ofPosition g pos).tile_edges.2.2.1,
                 (Tile.ofPosition g pos).tile_edges.2.1⟩ =
      Except.ok (((s0.width / 2 : ℕ) : ℚ) * (s0.tilesize : ℚ),
                 ((s0.height / 2 : ℕ) : ℚ) * (s0.tilesize : ℚ)) := by
  rw [calculate_bounds_eq g s0 pos hp hlat hlon] at hcb
  injection hcb with hs
  subst hs
  have hdh1 : (2 * ((s0.height / 2 : ℕ) : ℚ) + 1) ≠ 0 := by positivity
  have hdw1 : (2 * ((s0.width / 2 : ℕ) : ℚ) + 1) ≠ 0 := by positivity
  have hdlat : (boundsState g s0 pos).lat_max - (boundsState g s0 pos).lat_min ≠ 0 := by
    simp only [boundsState, Int.cast_add, Int.cast_sub, Int.cast_one,
      Int.cast_natCast]
    intro hcon
    have h2 : (2 * ((s0.height / 2 : ℕ) : ℚ) + 1) * g.latStep = 0 := by
      linear_combination hcon
    rcases mul_eq_zero.mp h2 with h3 | h3
    · exact hdh1 h3
    · exact hlat h3
  have hdlon : (boundsState g s0 pos).lon_max - (boundsState g s0 pos).lon_min ≠ 0 := by
    simp only [boundsState, Int.cast_add, Int.cast_sub, Int.cast_one,
      Int.cast_natCast]
    intro hcon
    have h2 : (2 * ((s0.width / 2 : ℕ) : ℚ) + 1) * g.lonStep = 0 := by
      linear_combination -hcon
    rcases mul_eq_zero.mp h2 with h3 | h3
    · exact hdw1 h3
    · exact hlon h3
  rw [latlon2xy_eq _ _ hdlat hdlon]
  simp only [Except.ok.injEq, Prod.mk.injEq, boundsState, Tile.ofPosition,
    Tile.tile_edges, latEdge, lonEdge, LAT_MAX, LON_MAX, Int.cast_add,
    Int.cast_sub, Int.cast_neg, Int.cast_one, Int.cast_natCast]
  exact ⟨corner_helper_lon _ _ _ _ _ hlon hdw1,
         corner_helper_lat _ _ _ _ _ hlat hdh1⟩

/-- Witness for the amended C5 on the concrete run. -/
theorem latlon2xy_center_tile_corner_witness :
    latlon2xy cBounds05 ⟨(Tile.ofPosition cGrid ⟨1/2, 1/2⟩).tile_edges.2.2.1,
        (Tile.ofPosition cGrid ⟨1/2, 1/2⟩).tile_edges.2.1⟩ =
      Except.ok (((cState05.width / 2 : ℕ) : ℚ) * (cState05.tilesize : ℚ),
        ((cState05.height / 2 : ℕ) : ℚ) * (cState05.tilesize : ℚ)) :=
  latlon2xy_center_tile_corner cGrid cState05 cBounds05 ⟨1/2, 1/2⟩ rfl
    (by norm_num [cGrid]) (by norm_num [cGrid]) cBounds05_eq

/-- A state whose latitude axis is degenerate (lat_max = lat_min = 5)
while the longitude axis is not (0 to 1024). -/
def dState : MapState := ⟨4, 4, 256, some ⟨0, 0⟩, 5, 5, 0, 1024, 0, 0, []⟩

/-- Counterexample to claim C6 as stated: with a degenerate latitude
axis latlon2xy hits its unguarded division by zero (a Python
ZeroDivisionError, not a distinct defined error), while xy2latlon
raises nothing at all and silently returns an ordinary position. -/
theorem claim_c6_counterexample :
    dState.lat_max = dState.lat_min ∧
    latlon2xy dState ⟨0, 0⟩ = Except.error PyErr.zeroDivision ∧
    xy2latlon dState 100 100 = Except.ok ⟨-85, 744⟩ := by
  refine ⟨rfl, ?_, ?_⟩ <;>
    norm_num [dState, latlon2xy, xy2latlon, qdiv, LAT_MAX, LON_MAX]

/-- Claim C6 (amended): on a degenerate axis latlon2xy fails with the
ZeroDivisionError of its unguarded division, while xy2latlon never
divides by the bound differences: it succeeds, collapsing a degenerate
latitude axis to the constant latitude lat_min - LAT_MAX and a
degenerate longitude axis to the constant longitude lon_min - LON_MAX. -/
theorem degenerate_bounds_behavior (s : MapState) (p : Position) (x y : ℚ)
    (hdeg : s.lat_max = s.lat_min ∨ s.lon_max = s.lon_min)
    (hW : ((s.tilesize * s.width : ℕ) : ℚ) ≠ 0)
    (hH : ((s.tilesize * s.height : ℕ) : ℚ) ≠ 0) :
    latlon2xy s p = Except.error PyErr.zeroDivision ∧
    ∃ q, xy2latlon s x y = Except.ok q ∧
      (s.lat_max = s.lat_min → q.latitude = s.lat_min - LAT_MAX) ∧
      (s.lon_max = s.lon_min → q.longitude = s.lon_min - LON_MAX) := by
  constructor
  · rcases hdeg with h | h
    · exact latlon2xy_degenerate_lat s p (by rw [h, sub_self])
    · exact latlon2xy_degenerate_lon s p (by rw [h, sub_self])
  · refine ⟨_, xy2latlon_eq s x y hW hH, ?_, ?_⟩
    · intro h
      simp [h]
    · intro h
      simp [h]

/-- Witness for the amended C6 on the concrete degenerate state. -/
theorem degenerate_bounds_behavior_witness :
    latlon2xy dState ⟨1, 2⟩ = Except.error PyErr.zeroDivision ∧
    ∃ q, xy2latlon dState 50 60 = Except.ok q ∧
      (dState.lat_max = dState.lat_min → q.latitude = dState.lat_min - LAT_MAX) ∧
      (dState.lon_max = dState.lon_min → q.longitude = dState.lon_min - LON_MAX) :=
  degenerate_bounds_behavior dState ⟨1, 2⟩ 50 60 (Or.inl rfl)
    (by norm_num [dState]) (by norm_num [dState])

/-- Counterexample to claim C7 as stated: on a freshly constructed
widget with no center position set, xy2latlon does not fail at all: it
computes from the zeroed initial bounds and silently returns latitude
-90 and longitude -180. -/
theorem claim_c7_counterexample :
    (mapWidgetInit 4 4 256).position = none ∧
    xy2latlon (mapWidgetInit 4 4 256) 100 100 = Except.ok ⟨-90, -180⟩ := by
  refine ⟨rfl, ?_⟩
  norm_num [mapWidgetInit, xy2latlon, qdiv, LAT_MAX, LON_MAX]

/-- Claim C7 (amended): with no center set, calculate_bounds fails in
the tile collaborator (handed position None), latlon2xy fails with a
ZeroDivisionError from the zeroed initial bounds, not a dedicated
no-center condition, and xy2latlon does not fail at all: it silently
returns Position(-90, -180) for every pixel from the stale zero
bounds. -/
theorem unset_center_behavior (g : TileGrid) (w h T : ℕ) (p : Position)
    (x y : ℚ)
    (hW : ((T * w : ℕ) : ℚ) ≠ 0) (hH : ((T * h : ℕ) : ℚ) ≠ 0) :
    calculate_bounds g (mapWidgetInit w h T) = Except.error PyErr.badPosition ∧
    latlon2xy (mapWidgetInit w h T) p = Except.error PyErr.zeroDivision ∧
    xy2latlon (mapWidgetInit w h T) x y = Except.ok ⟨-90, -180⟩ := by
  refine ⟨rfl, ?_, ?_⟩
  · exact latlon2xy_degenerate_lat _ p (by simp [mapWidgetInit])
  · rw [xy2latlon_eq _ _ _ hW hH]
    simp [mapWidgetInit, LAT_MAX, LON_MAX]

/-- Witness for the amended C7 on a concrete fresh widget. -/
theorem unset_center_behavior_witness :
    calculate_bounds cGrid (mapWidgetInit 4 4 256) = Except.error PyErr.badPosition ∧
    latlon2xy (mapWidgetInit 4 4 256) ⟨3, 7⟩ = Except.error PyErr.zeroDivision ∧
    xy2latlon (mapWidgetInit 4 4 256) 5 6 = Except.ok ⟨-90, -180⟩ :=
  unset_center_behavior cGrid 4 4 256 ⟨3, 7⟩ 5 6 (by norm_num) (by norm_num)

/-- Counterexample to claim C8 as stated: after construction,
set_center and calculate_bounds, the visible tile list is still empty,
so point_is_visible is false even at the center position. -/
theorem claim_c8_counterexample :
    ∃ s, calculate_bounds cGrid cState0 = Except.ok s ∧
      point_is_visible s ⟨0, 0⟩ = false :=
  ⟨cBounds, cBounds_eq, rfl⟩

/-- Claim C8 (amended): point_is_visible is exactly the linear scan of
map_tiles for a tile containing the point; but calculate_bounds leaves
map_tiles untouched and the list is empty after construction, so after
construction, set_center and calculate_bounds alone, it returns false
for every point including the center.  The visible tile list is
populated by the draw handler, outside this excerpt. -/
theorem point_is_visible_spec (s : MapState) (p : Position) :
    (point_is_visible s p = true ↔ ∃ t ∈ s.map_tiles, posInTile p t = true) ∧
    (∀ g w h T pos s1,
      calculate_bounds g (set_center (mapWidgetInit w h T) pos) = Except.ok s1 →
      ∀ q, point_is_visible s1 q = false) := by
  constructor
  · simp [point_is_visible, List.any_eq_true]
  · intro g w h T pos s1 hcb q
    simp only [calculate_bounds, set_center, mapWidgetInit] at hcb
    split at hcb
    · exact absurd hcb (by simp)
    · injection hcb with hs
      subst hs
      simp [point_is_visible]

/-- Witness for the amended C8: the scan characterization at a concrete
state and the falsity at the center after a concrete calculate_bounds
run. -/
theorem point_is_visible_spec_witness :
    point_is_visible cBounds ⟨0, 0⟩ = false :=
  (point_is_visible_spec cBounds ⟨0, 0⟩).2 cGrid 4 4 256 ⟨0, 0⟩ cBounds
    cBounds_eq ⟨0, 0⟩

/-- Claim C9: on a fresh menu item the builder produces exactly one
horizontal box child holding exactly one icon widget and exactly one
accel label reading the label text, and installs exactly one
accelerator binding the activate signal to the key derived from the
given character with the given modifiers. -/
theorem menu_builder_spec (item : MenuItem) (icon_name label_text : String)
    (c : Char) (mods : ℕ)
    (hc : item.children = []) (ha : item.accels = []) :
    (add_menu_accel_theme_image item icon_name label_text c mods).children =
      [Widget.box BoxOrient.horizontal 6
        [Widget.image (IconSrc.themeIcon icon_name),
         Widget.accelLabel label_text]] ∧
    (add_menu_accel_theme_image item icon_name label_text c mods).accels =
      [⟨"activate", unicode_to_keyval c, mods, true⟩] ∧
    iconCountList
      (add_menu_accel_theme_image item icon_name label_text c mods).children = 1 ∧
    labelCountList label_text
      (add_menu_accel_theme_image item icon_name label_text c mods).children = 1 := by
  simp [add_menu_accel_theme_image, add_menu_accel_image, hc, ha,
    iconCountList, iconCount, labelCountList, labelCount]

/-- Witness for C9 at the concrete label Open, icon document-open and
accelerator O with modifier mask 4. -/
theorem menu_builder_spec_witness :
    (add_menu_accel_theme_image ⟨[], []⟩ "document-open" "Open" 'O' 4).children =
      [Widget.box BoxOrient.horizontal 6
        [Widget.image (IconSrc.themeIcon "document-open"),
         Widget.accelLabel "Open"]] ∧
    (add_menu_accel_theme_image ⟨[], []⟩ "document-open" "Open" 'O' 4).accels =
      [⟨"activate", unicode_to_keyval 'O', 4, true⟩] ∧
    iconCountList
      (add_menu_accel_theme_image ⟨[], []⟩ "document-open" "Open" 'O' 4).children = 1 ∧
    labelCountList "Open"
      (add_menu_accel_theme_image ⟨[], []⟩ "document-open" "Open" 'O' 4).children = 1 :=
  menu_builder_spec ⟨[], []⟩ "document-open" "Open" 'O' 4 rfl rfl

end DRats
